import Mathlib

/-!
Verification of the post-analysis application (`src/app.py`).

The embedding models a pandas DataFrame as a `Frame`: a schema (column
names with dtypes, in order) together with an ordered list of typed rows.
Rows carry a pandas index label (their position in the loaded table),
because `Application.__collect_daily_top_posts` mixes a reset index with
the original filtered index, and that alignment is observable behaviour.

The `frozenset` type of Python has no specified iteration order, so
`validate_schema` is parameterised by the iteration order actually used,
quantified over permutations of the required-column set in the theorems.

Timestamp parsing is performed by pandas (`pd.to_datetime`), external to
the repository, so it is an abstract parameter `parse : String → Option Nat`
mapping a timestamp string to its calendar-date key (dates are linearly
ordered; pandas sorts group keys ascending).
-/

/-- Pandas column dtypes relevant to the application.  `np.int` columns
load as `int64`; string columns load as `object`. -/
inductive Dtype
  | int64
  | object
  | boolDtype
  | float64
deriving DecidableEq, Repr

/-- A post record: the seven required fields of §3, plus the values of any
extra columns (carried as an opaque association list). -/
structure Row where
  id : Int
  title : String
  privacy : String
  likes : Int
  views : Int
  comments : Int
  timestamp : String
  extra : List (String × String)
deriving DecidableEq, Repr

/-- A pandas DataFrame: its column schema (name, dtype in column order)
and its rows in order. -/
structure Frame where
  schema : List (String × Dtype)
  rows : List Row
deriving DecidableEq, Repr

/-- The errors the core can raise: `MissingColumnException`,
`UnsupportedColumnTypeException`, and the parse error raised by
`pd.to_datetime` on an unparseable timestamp. -/
inductive Err
  | missingColumn (name : String)
  | unsupportedType (name : String) (expected actual : Dtype)
  | parseError (value : String)
deriving DecidableEq, Repr

/-- `_VALID_COLUMNS`, in the order the literal is written in the source
(the canonical column order of the schema).  In Python this is a
`frozenset`, so iteration order over it is NOT this order. -/
def validColumns : List (String × Dtype) :=
  [("id", Dtype.int64), ("title", Dtype.object), ("privacy", Dtype.object),
   ("likes", Dtype.int64), ("views", Dtype.int64), ("comments", Dtype.int64),
   ("timestamp", Dtype.object)]

/-- `df[name].dtype` for a present column (first occurrence), `none` when
`name not in df.columns`. -/
def lookupDtype (schema : List (String × Dtype)) (n : String) : Option Dtype :=
  (schema.find? (fun c => c.1 = n)).map (fun c => c.2)

/-- The loop body of `Application.validate_schema`: iterate over the
required columns in the given order; raise `MissingColumnException` when a
column is absent, `UnsupportedColumnTypeException` when its dtype differs
from the declared one. -/
def checkColumns : List (String × Dtype) → List (String × Dtype) → Except Err Unit
  | [], _ => Except.ok ()
  | (n, d) :: rest, schema =>
    match lookupDtype schema n with
    | none => Except.error (Err.missingColumn n)
    | some actual =>
      if actual = d then checkColumns rest schema
      else Except.error (Err.unsupportedType n d actual)

/-- `Application.validate_schema`, parameterised by the iteration order of
the `_VALID_COLUMNS` frozenset. -/
def validate_schema (order : List (String × Dtype)) (f : Frame) : Except Err Unit :=
  checkColumns order f.schema

/-- The classification predicate of `Application.analyze_posts`:
public, over 10 comments, over 9000 views, title under 40 characters. -/
def is_top (r : Row) : Bool :=
  decide (r.privacy = "public" ∧ r.comments > 10 ∧ r.views > 9000 ∧ r.title.length < 40)

/-- The rows of a freshly loaded frame with their pandas index labels
(`read_csv` gives a RangeIndex 0..n-1). -/
def labeledRows (f : Frame) : List (Nat × Row) :=
  f.rows.enum

/-- `posts_df.loc[condition]`: the rows satisfying the predicate, keeping
their original index labels. -/
def topOf (f : Frame) : List (Nat × Row) :=
  (labeledRows f).filter (fun p => is_top p.2)

/-- `posts_df.loc[~condition]`. -/
def otherOf (f : Frame) : List (Nat × Row) :=
  (labeledRows f).filter (fun p => ! is_top p.2)

/-- `pd.to_datetime(df[C_TIMESTAMP])` raises on the first timestamp it
cannot parse; this returns that timestamp string, or `none` when all
parse. -/
def firstBadTimestamp (parse : String → Option Nat) : List (Nat × Row) → Option String
  | [] => none
  | p :: rest =>
    match parse p.2.timestamp with
    | none => some p.2.timestamp
    | some _ => firstBadTimestamp parse rest

/-- The grouping key that pandas assigns to label `j` of the reset frame:
the key Series keeps the original index of `df`, so it is reindexed onto the
reset RangeIndex `0..k-1`; label `j` gets the date of the row of `df`
whose ORIGINAL label is `j`, or NaN (`none`) when no such row exists. -/
def keyOfLabel (parse : String → Option Nat) (df : List (Nat × Row)) (j : Nat) : Option Nat :=
  (df.find? (fun p => p.1 = j)).bind (fun p => parse p.2.timestamp)

/-- The `likes` value of the reset frame at label `j`, i.e. the `j`-th row
of `df` positionally. -/
def likesAtPos (df : List (Nat × Row)) (j : Nat) : Int :=
  ((df.get? j).map (fun p => p.2.likes)).getD 0

/-- The labels of the reset frame falling in the group of date `d`
(NaN-keyed labels belong to no group), in original order. -/
def groupLabels (parse : String → Option Nat) (df : List (Nat × Row)) (d : Nat) : List Nat :=
  (List.range df.length).filter (fun j => keyOfLabel parse df j == some d)

/-- Fold of `idxmax`: keep the current best label, updating only on a
strictly greater value (first occurrence wins ties). -/
def idxmaxAux (df : List (Nat × Row)) : List Nat → Nat → Int → Nat
  | [], best, _ => best
  | j :: rest, best, bestVal =>
    if likesAtPos df j > bestVal then idxmaxAux df rest j (likesAtPos df j)
    else idxmaxAux df rest best bestVal

/-- `groupby[C_LIKES].idxmax()` within one group: the first label among
the group attaining the maximum `likes` of the reset frame. -/
def idxmax (df : List (Nat × Row)) : List Nat → Option Nat
  | [] => none
  | j :: rest => some (idxmaxAux df rest j (likesAtPos df j))

/-- All non-NaN group keys of the reset frame. -/
def presentKeys (parse : String → Option Nat) (df : List (Nat × Row)) : List Nat :=
  (List.range df.length).filterMap (keyOfLabel parse df)

/-- The distinct group keys in ascending order (pandas `groupby` sorts
group keys by default). -/
def sortedDistinctKeys (parse : String → Option Nat) (df : List (Nat × Row)) : List Nat :=
  (List.range ((presentKeys parse df).foldr max 0 + 1)).filter
    (fun d => (presentKeys parse df).contains d)

/-- `Application.__collect_daily_top_posts`: parse every timestamp of `df`
(raising on the first failure), group the RESET frame by the reindexed
date key, take `idxmax` of `likes` per group, and select those labels
from `df` by its ORIGINAL index (`df.loc[...]`). -/
def collectDailyTopPosts (parse : String → Option Nat) (df : List (Nat × Row)) :
    Except Err (List (Nat × Row)) :=
  match firstBadTimestamp parse df with
  | some s => Except.error (Err.parseError s)
  | none =>
    Except.ok ((sortedDistinctKeys parse df).filterMap (fun d =>
      (idxmax df (groupLabels parse df d)).bind (fun j => df.find? (fun p => p.1 = j))))

/-- `Application.analyze_posts`: validate, classify into top/other, build
the daily-top table from top, and return the triple. -/
def analyze_posts (parse : String → Option Nat) (order : List (String × Dtype)) (f : Frame) :
    Except Err (List (Nat × Row) × List (Nat × Row) × List (Nat × Row)) := do
  let _ ← validate_schema order f
  let top := topOf f
  let other := otherOf f
  let daily ← collectDailyTopPosts parse top
  return (top, other, daily)

/-- The behaviour §4.1 of the spec describes for a missing column: the
first missing required column in canonical column order. -/
def firstMissingCanonical (f : Frame) : Option String :=
  (validColumns.find? (fun c => lookupDtype f.schema c.1 == none)).map (fun c => c.1)

/-- A concrete timestamp parser used to instantiate the abstract pandas
parser in witnesses: "d3" is day 3, "d4" is day 4, anything else is
unparseable. -/
def parse0 (s : String) : Option Nat :=
  if s = "d3" then some 3 else if s = "d4" then some 4 else none

/-- A row failing the classification predicate (only 0 comments). -/
def r0 : Row := ⟨0, "t0", "public", 5, 9500, 0, "d3", []⟩

/-- A row satisfying the classification predicate, dated day 3. -/
def r1 : Row := ⟨1, "t1", "public", 7, 9500, 20, "d3", []⟩

/-- A two-row table whose top rows are NOT a positional head of the
table: row 0 is not top, row 1 is. -/
def F1 : Frame := ⟨validColumns, [r0, r1]⟩

/-- A top row with an unparseable timestamp. -/
def rowBad : Row := ⟨9, "a", "public", 1, 9500, 20, "xx", []⟩

/-- A one-row table whose single top row has an unparseable timestamp. -/
def Fb : Frame := ⟨validColumns, [rowBad]⟩

/-- A row carrying an extra-column value. -/
def rowExtra : Row := ⟨5, "b", "public", 2, 9500, 20, "d3", [("woof", "1.5")]⟩

/-- A table with an additional eighth column beyond the required seven. -/
def Fe : Frame := ⟨validColumns ++ [("woof", Dtype.float64)], [rowExtra]⟩

/-- A row violating the value-level expectation that likes be
non-negative. -/
def rowNeg : Row := ⟨6, "c", "public", -5, 9500, 20, "d3", []⟩

/-- A schema-correct table containing a row with negative likes. -/
def Fneg : Frame := ⟨validColumns, [rowNeg]⟩

/-- Unfolding of `analyze_posts` into the sequencing of the validator,
the classifier and the daily aggregator. -/
theorem analyze_eq (parse : String → Option Nat) (order : List (String × Dtype)) (f : Frame) :
    analyze_posts parse order f =
      (validate_schema order f).bind (fun _ =>
        (collectDailyTopPosts parse (topOf f)).bind (fun d =>
          Except.ok (topOf f, otherOf f, d))) := rfl

/-- A successful run of `analyze_posts` returns exactly the classifier
partitions and a successful daily aggregation of the top partition. -/
theorem analyze_ok_elim {parse : String → Option Nat} {order : List (String × Dtype)} {f : Frame}
    {top other daily : List (Nat × Row)}
    (h : analyze_posts parse order f = Except.ok (top, other, daily)) :
    validate_schema order f = Except.ok () ∧ top = topOf f ∧ other = otherOf f ∧
      collectDailyTopPosts parse (topOf f) = Except.ok daily := by
  rw [analyze_eq] at h
  cases hv : validate_schema order f with
  | error e => rw [hv] at h; simp [Except.bind] at h
  | ok u =>
    cases u
    rw [hv] at h
    cases hc : collectDailyTopPosts parse (topOf f) with
    | error e => rw [hc] at h; simp [Except.bind] at h
    | ok d =>
      rw [hc] at h
      simp [Except.bind] at h
      exact ⟨rfl, h.1.symm, h.2.1.symm, by rw [h.2.2]⟩

/-- Splitting a list by a predicate conserves its length. -/
theorem length_filter_partition {α : Type} (p : α → Bool) (l : List α) :
    (l.filter p).length + (l.filter (fun a => ! p a)).length = l.length := by
  induction l with
  | nil => rfl
  | cons a t ih =>
    by_cases h : p a = true <;> simp [List.filter_cons, h] <;> omega

/-- C1: the claim says the daily-top table of `analyze_posts` holds, for
every distinct calendar date of the top table, the maximum-likes top row
of that date.  The code violates this: grouping aligns the date keys
(indexed by the ORIGINAL filtered labels) onto the reset RangeIndex, so
whenever the top rows are not exactly the leading rows of the input the
groups are wrong.  On `F1` (row 0 not top, row 1 top, date 3) the
daily-top table comes back empty although the top table has a row whose
timestamp parses to date 3. -/
theorem C1_daily_top_misaligned :
    analyze_posts parse0 validColumns F1 =
      Except.ok ([(1, r1)], [(0, r0)], ([] : List (Nat × Row))) ∧
    (∃ p ∈ topOf F1, parse0 p.2.timestamp = some 3) := by
  constructor
  · rfl
  · exact ⟨(1, r1), by decide, by decide⟩

/-- C2: every row placed in the top partition satisfies
privacy = "public", comments > 10, views > 9000 and title shorter than 40
characters; every row in the other partition violates at least one of the
four strict conditions; in particular rows with exactly 10 comments or a
40-character title land in the other partition. -/
theorem C2_top_predicate (parse : String → Option Nat) (order : List (String × Dtype))
    (f : Frame) (top other daily : List (Nat × Row))
    (h : analyze_posts parse order f = Except.ok (top, other, daily)) :
    (∀ p ∈ top, p.2.privacy = "public" ∧ p.2.comments > 10 ∧ p.2.views > 9000 ∧
      p.2.title.length < 40) ∧
    (∀ p ∈ other, ¬ (p.2.privacy = "public" ∧ p.2.comments > 10 ∧ p.2.views > 9000 ∧
      p.2.title.length < 40)) ∧
    (∀ p ∈ labeledRows f, (p.2.comments = 10 ∨ p.2.title.length = 40) → p ∈ other) := by
  obtain ⟨-, htop, hother, -⟩ := analyze_ok_elim h
  subst htop hother
  refine ⟨?_, ?_, ?_⟩
  · intro p hp
    have hb := (List.mem_filter.mp hp).2
    simp only [is_top, decide_eq_true_eq] at hb
    exact hb
  · intro p hp hcontra
    have hb := (List.mem_filter.mp hp).2
    simp only [is_top, Bool.not_eq_true', decide_eq_false_iff_not] at hb
    exact hb hcontra
  · intro p hp hcase
    refine List.mem_filter.mpr ⟨hp, ?_⟩
    simp only [is_top, Bool.not_eq_true', decide_eq_false_iff_not]
    rintro ⟨-, h2, -, h4⟩
    rcases hcase with hc | hc
    · omega
    · omega

/-- C2 witness: the theorem applied to the concrete table `F1`, whose
top partition is row 1 and whose other partition is row 0. -/
theorem C2_witness :
    (∀ p ∈ [(1, r1)], p.2.privacy = "public" ∧ p.2.comments > 10 ∧ p.2.views > 9000 ∧
      p.2.title.length < 40) ∧
    (∀ p ∈ [(0, r0)], ¬ (p.2.privacy = "public" ∧ p.2.comments > 10 ∧ p.2.views > 9000 ∧
      p.2.title.length < 40)) ∧
    (∀ p ∈ labeledRows F1, (p.2.comments = 10 ∨ p.2.title.length = 40) → p ∈ [(0, r0)]) :=
  C2_top_predicate parse0 validColumns F1 [(1, r1)] [(0, r0)] [] rfl

/-- C3: the top and other partitions are disjoint, their lengths sum to
the input length, every labeled input row lies in exactly one of them,
and the id sets of input and of the union of the partitions coincide. -/
theorem C3_partition (parse : String → Option Nat) (order : List (String × Dtype))
    (f : Frame) (top other daily : List (Nat × Row))
    (h : analyze_posts parse order f = Except.ok (top, other, daily)) :
    top.length + other.length = f.rows.length ∧
    (∀ p, p ∈ top → p ∉ other) ∧
    (∀ p, p ∈ labeledRows f ↔ (p ∈ top ∨ p ∈ other)) ∧
    (∀ i : Int, (∃ p ∈ labeledRows f, p.2.id = i) ↔
      ((∃ p ∈ top, p.2.id = i) ∨ (∃ p ∈ other, p.2.id = i))) := by
  obtain ⟨-, htop, hother, -⟩ := analyze_ok_elim h
  subst htop hother
  have hmem : ∀ p, p ∈ labeledRows f ↔ (p ∈ topOf f ∨ p ∈ otherOf f) := by
    intro p
    constructor
    · intro hp
      by_cases ht : is_top p.2 = true
      · exact Or.inl (List.mem_filter.mpr ⟨hp, ht⟩)
      · exact Or.inr (List.mem_filter.mpr ⟨hp, by simpa using ht⟩)
    · rintro (hp | hp) <;> exact (List.mem_filter.mp hp).1
  refine ⟨?_, ?_, hmem, ?_⟩
  · have hlen := length_filter_partition (fun p => is_top p.2) (labeledRows f)
    have hrows : (labeledRows f).length = f.rows.length := List.enum_length
    calc (topOf f).length + (otherOf f).length
        = (labeledRows f).length := hlen
      _ = f.rows.length := hrows
  · intro p hp hq
    have h1 := (List.mem_filter.mp hp).2
    have h2 := (List.mem_filter.mp hq).2
    simp at h1 h2
    rw [h1] at h2
    exact absurd h2 (by simp)
  · intro i
    constructor
    · rintro ⟨p, hp, hid⟩
      rcases (hmem p).mp hp with h2 | h2
      · exact Or.inl ⟨p, h2, hid⟩
      · exact Or.inr ⟨p, h2, hid⟩
    · rintro (⟨p, hp, hid⟩ | ⟨p, hp, hid⟩) <;>
        exact ⟨p, (hmem p).mpr (by simp [hp]), hid⟩

/-- C3 witness: row conservation on the concrete table `F1`. -/
theorem C3_witness :
    ([(1, r1)] : List (Nat × Row)).length + ([(0, r0)] : List (Nat × Row)).length =
      F1.rows.length :=
  (C3_partition parse0 validColumns F1 [(1, r1)] [(0, r0)] [] rfl).1

/-- Acceptance of `checkColumns`: it succeeds exactly when every required
column of the iterated list is present with its declared dtype. -/
theorem checkColumns_ok_iff (order schema : List (String × Dtype)) :
    checkColumns order schema = Except.ok () ↔
      ∀ c ∈ order, lookupDtype schema c.1 = some c.2 := by
  induction order with
  | nil => simp [checkColumns]
  | cons c rest ih =>
    obtain ⟨n, d⟩ := c
    simp only [checkColumns, List.forall_mem_cons]
    cases hl : lookupDtype schema n with
    | none => simp [hl]
    | some actual =>
      by_cases ha : actual = d
      · subst ha
        simp [hl, ih]
      · simp [hl, ha, Ne.symm ha]

/-- A missing-column failure of `checkColumns` names a required column
that is indeed absent from the schema. -/
theorem checkColumns_missing (order schema : List (String × Dtype)) {n : String}
    (h : checkColumns order schema = Except.error (Err.missingColumn n)) :
    (∃ d, (n, d) ∈ order) ∧ lookupDtype schema n = none := by
  induction order with
  | nil => simp [checkColumns] at h
  | cons c rest ih =>
    obtain ⟨m, d⟩ := c
    simp only [checkColumns] at h
    cases hl : lookupDtype schema m with
    | none =>
      simp only [hl, Except.error.injEq, Err.missingColumn.injEq] at h
      subst h
      exact ⟨⟨d, by simp⟩, hl⟩
    | some actual =>
      simp only [hl] at h
      by_cases ha : actual = d
      · subst ha
        rw [if_pos rfl] at h
        obtain ⟨⟨d2, hd2⟩, hnone⟩ := ih h
        exact ⟨⟨d2, by simp [hd2]⟩, hnone⟩
      · rw [if_neg ha] at h
        simp at h

/-- An unsupported-type failure of `checkColumns` names a required column
that is present with exactly the reported mismatched dtype. -/
theorem checkColumns_unsupported (order schema : List (String × Dtype)) {n : String}
    {dexp dact : Dtype}
    (h : checkColumns order schema = Except.error (Err.unsupportedType n dexp dact)) :
    (n, dexp) ∈ order ∧ lookupDtype schema n = some dact ∧ dact ≠ dexp := by
  induction order with
  | nil => simp [checkColumns] at h
  | cons c rest ih =>
    obtain ⟨m, d⟩ := c
    simp only [checkColumns] at h
    cases hl : lookupDtype schema m with
    | none =>
      simp only [hl] at h
      simp at h
    | some actual =>
      simp only [hl] at h
      by_cases ha : actual = d
      · subst ha
        rw [if_pos rfl] at h
        obtain ⟨hmem, hsome, hne⟩ := ih h
        exact ⟨List.mem_cons_of_mem _ hmem, hsome, hne⟩
      · rw [if_neg ha] at h
        simp only [Except.error.injEq, Err.unsupportedType.injEq] at h
        obtain ⟨rfl, rfl, rfl⟩ := h
        exact ⟨by simp, hl, ha⟩

/-- `checkColumns` fails exactly when some required column is absent or
mistyped. -/
theorem checkColumns_error_iff (order schema : List (String × Dtype)) :
    (∃ e, checkColumns order schema = Except.error e) ↔
      ¬ ∀ c ∈ order, lookupDtype schema c.1 = some c.2 := by
  rw [← checkColumns_ok_iff]
  cases h : checkColumns order schema with
  | error e => simp [h]
  | ok u =>
    cases u
    simp [h]

/-- C4 counterexample: the iteration order over the `_VALID_COLUMNS`
frozenset is unspecified; the reversed canonical order is such an order,
and under it the empty schema (every required column missing) is rejected
naming "timestamp", not the first missing column in canonical order,
which is "id". -/
theorem C4_counterexample :
    List.Perm validColumns.reverse validColumns ∧
    firstMissingCanonical ⟨[], []⟩ = some "id" ∧
    validate_schema validColumns.reverse ⟨[], []⟩ =
      Except.error (Err.missingColumn "timestamp") ∧
    Err.missingColumn "timestamp" ≠ Err.missingColumn "id" := by
  exact ⟨List.reverse_perm validColumns, rfl, rfl, by decide⟩

/-- C4 amended: for every iteration order of the required-column set,
validation succeeds exactly when all seven required columns are present
with their declared dtypes; a MissingColumn failure names a required
column that is absent, and an UnsupportedType failure names a required
column present with exactly the reported expected and actual dtypes.
Which offending column is named follows the unspecified frozenset
iteration order, not the canonical column order. -/
theorem C4_validation_errors (order : List (String × Dtype)) (f : Frame)
    (hperm : List.Perm order validColumns) :
    (validate_schema order f = Except.ok () ↔
      ∀ c ∈ validColumns, lookupDtype f.schema c.1 = some c.2) ∧
    (∀ n, validate_schema order f = Except.error (Err.missingColumn n) →
      (∃ d, (n, d) ∈ validColumns) ∧ lookupDtype f.schema n = none) ∧
    (∀ n dexp dact,
      validate_schema order f = Except.error (Err.unsupportedType n dexp dact) →
      (n, dexp) ∈ validColumns ∧ lookupDtype f.schema n = some dact ∧ dact ≠ dexp) ∧
    ((∃ e, validate_schema order f = Except.error e) ↔
      ¬ ∀ c ∈ validColumns, lookupDtype f.schema c.1 = some c.2) := by
  have hmem : ∀ c : String × Dtype, c ∈ order ↔ c ∈ validColumns := fun c => hperm.mem_iff
  have hall : (∀ c ∈ order, lookupDtype f.schema c.1 = some c.2) ↔
      (∀ c ∈ validColumns, lookupDtype f.schema c.1 = some c.2) := by
    constructor <;> intro hp c hc
    · exact hp c ((hmem c).mpr hc)
    · exact hp c ((hmem c).mp hc)
  refine ⟨?_, ?_, ?_, ?_⟩
  · rw [validate_schema, checkColumns_ok_iff, hall]
  · intro n h
    obtain ⟨⟨d, hd⟩, hnone⟩ := checkColumns_missing order f.schema h
    exact ⟨⟨d, (hmem (n, d)).mp hd⟩, hnone⟩
  · intro n dexp dact h
    obtain ⟨hm, hs, hne⟩ := checkColumns_unsupported order f.schema h
    exact ⟨(hmem (n, dexp)).mp hm, hs, hne⟩
  · rw [validate_schema, checkColumns_error_iff, hall]

/-- C4 witness: on a schema holding only the id column, validation in
canonical iteration order reports the missing column "title", which is
required and indeed absent. -/
theorem C4_witness :
    (∃ d, ("title", d) ∈ validColumns) ∧
      lookupDtype [("id", Dtype.int64)] "title" = none :=
  (C4_validation_errors validColumns ⟨[("id", Dtype.int64)], []⟩ (List.Perm.refl _)).2.1
    "title" rfl

/-- C5: `analyze_posts` sequences validation, classification and daily
aggregation in that order and returns the triple (top, other, dailyTop);
a validator or aggregator failure propagates unchanged and no partial
triple is returned. -/
theorem C5_pipeline (parse : String → Option Nat) (order : List (String × Dtype)) (f : Frame) :
    (∀ e, validate_schema order f = Except.error e →
      analyze_posts parse order f = Except.error e) ∧
    (∀ e, validate_schema order f = Except.ok () →
      collectDailyTopPosts parse (topOf f) = Except.error e →
      analyze_posts parse order f = Except.error e) ∧
    (∀ d, validate_schema order f = Except.ok () →
      collectDailyTopPosts parse (topOf f) = Except.ok d →
      analyze_posts parse order f = Except.ok (topOf f, otherOf f, d)) := by
  refine ⟨?_, ?_, ?_⟩
  · intro e hv
    rw [analyze_eq, hv]
    rfl
  · intro e hv hc
    rw [analyze_eq, hv]
    show (collectDailyTopPosts parse (topOf f)).bind _ = _
    rw [hc]
    rfl
  · intro d hv hc
    rw [analyze_eq, hv]
    show (collectDailyTopPosts parse (topOf f)).bind _ = _
    rw [hc]
    rfl

/-- C5 witness: on a frame with no columns the validator fails and
`analyze_posts` surfaces exactly that failure. -/
theorem C5_witness :
    analyze_posts parse0 validColumns ⟨[], []⟩ = Except.error (Err.missingColumn "id") :=
  (C5_pipeline parse0 validColumns ⟨[], []⟩).1 (Err.missingColumn "id") rfl

/-- If some row of the list has an unparseable timestamp, then
`pd.to_datetime` fails on the first such timestamp. -/
theorem firstBad_of_exists (parse : String → Option Nat) (l : List (Nat × Row))
    (h : ∃ p ∈ l, parse p.2.timestamp = none) :
    ∃ s, firstBadTimestamp parse l = some s ∧ parse s = none ∧
      ∃ p ∈ l, p.2.timestamp = s := by
  induction l with
  | nil => simp at h
  | cons q rest ih =>
    cases hq : parse q.2.timestamp with
    | none =>
      refine ⟨q.2.timestamp, ?_, hq, q, by simp, rfl⟩
      simp [firstBadTimestamp, hq]
    | some d =>
      have h2 : ∃ p ∈ rest, parse p.2.timestamp = none := by
        rcases h with ⟨p, hp, hnone⟩
        rcases List.mem_cons.mp hp with rfl | hp2
        · rw [hq] at hnone
          cases hnone
        · exact ⟨p, hp2, hnone⟩
      obtain ⟨s, h1, hnone, p, hp, hts⟩ := ih h2
      refine ⟨s, ?_, hnone, p, List.mem_cons_of_mem _ hp, hts⟩
      simp [firstBadTimestamp, hq, h1]

/-- C6: on a validated table whose top partition has a row with an
unparseable timestamp, the daily aggregation fails with a ParseError on
such a timestamp, and `analyze_posts` propagates exactly that error (no
row is skipped or defaulted). -/
theorem C6_parse_error_propagated (parse : String → Option Nat)
    (order : List (String × Dtype)) (f : Frame)
    (hv : validate_schema order f = Except.ok ())
    (hbad : ∃ p ∈ topOf f, parse p.2.timestamp = none) :
    ∃ s, parse s = none ∧ (∃ p ∈ topOf f, p.2.timestamp = s) ∧
      collectDailyTopPosts parse (topOf f) = Except.error (Err.parseError s) ∧
      analyze_posts parse order f = Except.error (Err.parseError s) := by
  obtain ⟨s, hfb, hnone, hp⟩ := firstBad_of_exists parse (topOf f) hbad
  have hc : collectDailyTopPosts parse (topOf f) = Except.error (Err.parseError s) := by
    rw [collectDailyTopPosts, hfb]
  refine ⟨s, hnone, hp, hc, ?_⟩
  rw [analyze_eq, hv]
  show (collectDailyTopPosts parse (topOf f)).bind _ = _
  rw [hc]
  rfl

/-- C6 witness: the table `Fb`, whose single top row carries the
unparseable timestamp "xx". -/
theorem C6_witness :
    ∃ s, parse0 s = none ∧ (∃ p ∈ topOf Fb, p.2.timestamp = s) ∧
      collectDailyTopPosts parse0 (topOf Fb) = Except.error (Err.parseError s) ∧
      analyze_posts parse0 validColumns Fb = Except.error (Err.parseError s) :=
  C6_parse_error_propagated parse0 validColumns Fb rfl
    ⟨(0, rowBad), by decide, by decide⟩

/-- C7: the top partition and the other partition each preserve the
relative order of the input rows (each is a sublist of the labeled input
sequence). -/
theorem C7_order_preserved (parse : String → Option Nat) (order : List (String × Dtype))
    (f : Frame) (top other daily : List (Nat × Row))
    (h : analyze_posts parse order f = Except.ok (top, other, daily)) :
    top.Sublist (labeledRows f) ∧ other.Sublist (labeledRows f) := by
  obtain ⟨-, htop, hother, -⟩ := analyze_ok_elim h
  subst htop hother
  exact ⟨List.filter_sublist _, List.filter_sublist _⟩

/-- C7 witness: on `F1` the top partition is a sublist of the labeled
input. -/
theorem C7_witness : ([(1, r1)] : List (Nat × Row)).Sublist (labeledRows F1) :=
  (C7_order_preserved parse0 validColumns F1 [(1, r1)] [(0, r0)] [] rfl).1

/-- C8: a table holding all seven required columns with the required
dtypes passes validation even in the presence of extra columns, and the
classifier moves whole rows (extra-column values included) unchanged into
the partitions. -/
theorem C8_extra_columns_ok (order : List (String × Dtype)) (f : Frame)
    (hperm : List.Perm order validColumns)
    (hreq : ∀ c ∈ validColumns, lookupDtype f.schema c.1 = some c.2) :
    validate_schema order f = Except.ok () ∧
    (∀ p ∈ topOf f, p ∈ labeledRows f) ∧
    (∀ p ∈ otherOf f, p ∈ labeledRows f) := by
  refine ⟨?_, ?_, ?_⟩
  · rw [validate_schema, checkColumns_ok_iff]
    intro c hc
    exact hreq c (hperm.mem_iff.mp hc)
  · intro p hp
    exact (List.mem_filter.mp hp).1
  · intro p hp
    exact (List.mem_filter.mp hp).1

/-- C8 witness: `Fe` adds an eighth column (and a row with an
extra-column value) and is accepted. -/
theorem C8_witness : validate_schema validColumns Fe = Except.ok () :=
  (C8_extra_columns_ok validColumns Fe (List.Perm.refl _) (by decide)).1

/-- C9: on a validated table with zero rows, `analyze_posts` raises no
error and returns three empty tables. -/
theorem C9_empty_table (parse : String → Option Nat) (order : List (String × Dtype))
    (f : Frame) (hv : validate_schema order f = Except.ok ()) (hrows : f.rows = []) :
    analyze_posts parse order f = Except.ok ([], [], []) := by
  have h1 : topOf f = [] := by
    simp [topOf, labeledRows, hrows]
  have h2 : otherOf f = [] := by
    simp [otherOf, labeledRows, hrows]
  rw [analyze_eq, hv, h1, h2]
  rfl

/-- C9 witness: the empty table with the canonical schema. -/
theorem C9_witness :
    analyze_posts parse0 validColumns ⟨validColumns, []⟩ = Except.ok ([], [], []) :=
  C9_empty_table parse0 validColumns ⟨validColumns, []⟩ rfl rfl

/-- C10: validation inspects only column names and dtypes, never row
values: frames with equal schemas validate identically, and any frame
whose schema carries the required columns with the required dtypes is
accepted regardless of its rows. -/
theorem C10_values_ignored (order : List (String × Dtype)) (f g : Frame)
    (hs : f.schema = g.schema) :
    validate_schema order f = validate_schema order g ∧
    (List.Perm order validColumns →
      (∀ c ∈ validColumns, lookupDtype f.schema c.1 = some c.2) →
      validate_schema order f = Except.ok ()) := by
  constructor
  · show checkColumns order f.schema = checkColumns order g.schema
    rw [hs]
  · intro hperm hreq
    rw [validate_schema, checkColumns_ok_iff]
    intro c hc
    exact hreq c (hperm.mem_iff.mp hc)

/-- C10 witness: `Fneg` has a row with negative likes, violating the
value-level expectation, yet validation accepts it. -/
theorem C10_witness : validate_schema validColumns Fneg = Except.ok () :=
  (C10_values_ignored validColumns Fneg Fneg rfl).2 (List.Perm.refl _) (by decide)
